import Mathlib

/-
Shallow embedding of the settlement engine of the c4e hackathon simulation
(src/src/models/cooperative.py and src/src/models/decision.py).

Real numbers of the Python source (floats) are modelled as rationals, so all
arithmetic is exact.  The remote decision service (an HTTP call in the source)
is modelled as a function returning an `Option DecisionOutput`: `none` stands
for any transport or protocol failure (timeout, non-2xx status, malformed
body), `some d` for a successful response parsed into `DecisionOutput`.
Python exceptions that escape a function are modelled by `Option`/`SimResult`
results carrying the object state at the point of the raise.
-/

namespace C4E

/-- Modelled from the spec (section 4.1): the file src/src/models/storage.py is
not part of the repository snapshot; `Storage` and its `charge`/`discharge`
operations are reconstructed from the specification wording: a buffer with
`name`, `capacity` and `current_level`; `charge` accepts energy up to
`capacity - current_level` and returns the amount actually absorbed;
`discharge` releases up to `current_level` and returns the amount released;
a request with `amount <= 0` returns 0 and has no effect. -/
structure Storage where
  name : String
  capacity : ℚ
  current_level : ℚ

/-- Modelled from the spec (section 4.1): charge accepts energy up to the free
headroom, returns the pair (amount actually absorbed, updated storage). -/
def Storage.charge (s : Storage) (amount : ℚ) : ℚ × Storage :=
  if amount ≤ 0 then (0, s)
  else
    let accepted := min amount (s.capacity - s.current_level)
    (accepted, { s with current_level := s.current_level + accepted })

/-- Modelled from the spec (section 4.1): discharge releases energy up to the
current level, returns the pair (amount actually released, updated storage). -/
def Storage.discharge (s : Storage) (amount : ℚ) : ℚ × Storage :=
  if amount ≤ 0 then (0, s)
  else
    let released := min amount s.current_level
    (released, { s with current_level := s.current_level - released })

/-- One record of the hourly data feed (a dictionary with keys
hour, date, consumption, production in the source). -/
structure HourRecord where
  hour : Int
  date : String
  consumption : ℚ
  production : ℚ

/-- One record of the grid price table (keys purchase and sale). -/
structure GridCost where
  purchase : ℚ
  sale : ℚ

/-- Embeds DecisionInput of src/src/models/decision.py; storage_levels is the
dict mapping a storage name to its (current_level, capacity) pair. -/
structure DecisionInput where
  hour : Int
  production : ℚ
  consumption : ℚ
  storage_levels : List (String × ℚ × ℚ)
  grid_purchase_price : ℚ
  grid_sale_price : ℚ
  p2p_base_price : ℚ
  token_balance : ℚ

/-- Embeds DecisionOutput of src/src/models/decision.py; every field defaults
to 0, as in the Python constructor. -/
structure DecisionOutput where
  energy_added_to_storage : ℚ := 0
  energy_sold_to_grid : ℚ := 0
  energy_bought_from_storages : ℚ := 0
  energy_bought_from_grid : ℚ := 0

/-- Embeds DecisionOutput.from_dict: a field missing from the response body
(modelled as `none`) defaults to 0. -/
def DecisionOutput.fromDict (a b c d : Option ℚ) : DecisionOutput :=
  { energy_added_to_storage := a.getD 0
    energy_sold_to_grid := b.getD 0
    energy_bought_from_storages := c.getD 0
    energy_bought_from_grid := d.getD 0 }

/-- The mutable state of a Cooperative object: storages, token balances and
every history series initialised by Cooperative.__init__. -/
structure CoopState where
  storages : List Storage
  token_balances : List (String × ℚ)
  community_token_balance : ℚ
  history_consumption : List ℚ
  history_production : List ℚ
  history_token_balance : List ℚ
  history_p2p_price : List ℚ
  history_grid_price : List ℚ
  history_storage : List (String × List ℚ)
  history_energy_deficit : List ℚ
  history_energy_surplus : List ℚ
  history_energy_sold_to_grid : List ℚ
  history_energy_sold_to_p2p : List ℚ
  history_tokens_gained_from_grid : List ℚ
  history_purchase_price : List ℚ
  logs : List String

/-- Embeds Cooperative.__init__ (lines 10-38): storages from the configuration,
all token balances set to the initial balance, every history series empty. -/
def Cooperative.init (config_storages : List Storage) (initial_token_balance : ℚ) :
    CoopState :=
  { storages := config_storages
    token_balances :=
      ("community", initial_token_balance)
        :: config_storages.map (fun st => (st.name, initial_token_balance))
    community_token_balance := initial_token_balance
    history_consumption := []
    history_production := []
    history_token_balance := []
    history_p2p_price := []
    history_grid_price := []
    history_storage := config_storages.map (fun st => (st.name, ([] : List ℚ)))
    history_energy_deficit := []
    history_energy_surplus := []
    history_energy_sold_to_grid := []
    history_energy_sold_to_p2p := []
    history_tokens_gained_from_grid := []
    history_purchase_price := []
    logs := [] }

/-- Embeds the per-step snapshot sent to the manager agent
(cooperative.py lines 70-82). -/
def buildSnapshot (s : CoopState) (hd : HourRecord) (grid_price sale_price p2p_base_price : ℚ) :
    DecisionInput :=
  { hour := hd.hour
    production := hd.production
    consumption := hd.consumption
    storage_levels := s.storages.map (fun st => (st.name, st.current_level, st.capacity))
    grid_purchase_price := grid_price
    grid_sale_price := sale_price
    p2p_base_price := p2p_base_price
    token_balance := s.community_token_balance }

/-- Total free headroom of a list of storages, `sum(s.capacity - s.current_level)`
in cooperative.py lines 97-98. -/
def totalHeadroom (ss : List Storage) : ℚ :=
  (ss.map (fun st => st.capacity - st.current_level)).sum

/-- Total stored energy of a list of storages, `sum(s.current_level)`
in cooperative.py lines 99-100. -/
def totalLevel (ss : List Storage) : ℚ :=
  (ss.map (fun st => st.current_level)).sum

/-- Embeds the default strategy used when the manager agent is unavailable
(cooperative.py lines 96-101). -/
def fallbackDecision (energy_surplus energy_deficit : ℚ) (ss : List Storage) :
    DecisionOutput :=
  { energy_added_to_storage := min energy_surplus (totalHeadroom ss)
    energy_sold_to_grid :=
      max 0 (energy_surplus - min energy_surplus (totalHeadroom ss))
    energy_bought_from_storages := min energy_deficit (totalLevel ss)
    energy_bought_from_grid :=
      max 0 (energy_deficit - min energy_deficit (totalLevel ss)) }

/-- Follows the spec wording (section 4.4, LocalHeuristic): a pure function of
the DecisionInput snapshot that fills storage headroom with the surplus first,
sells the remaining surplus to the grid, draws the deficit from storage first
and covers the remaining deficit from the grid.  Stated from the spec so that
the fallback of the engine can be compared against it. -/
def LocalHeuristic (inp : DecisionInput) : DecisionOutput :=
  let surplus := max 0 (inp.production - inp.consumption)
  let deficit := max 0 (inp.consumption - inp.production)
  let headroom := (inp.storage_levels.map (fun p => p.2.2 - p.2.1)).sum
  let available := (inp.storage_levels.map (fun p => p.2.1)).sum
  let toStorage := min surplus headroom
  let fromStorage := min deficit available
  { energy_added_to_storage := toStorage
    energy_sold_to_grid := surplus - toStorage
    energy_bought_from_storages := fromStorage
    energy_bought_from_grid := deficit - fromStorage }

/-- The decision the engine applies for a step: the response of the provider when
the call succeeds, the default strategy otherwise (cooperative.py lines 85-101). -/
def decisionFor (provider : DecisionInput → Option DecisionOutput)
    (inp : DecisionInput) (energy_surplus energy_deficit : ℚ) (ss : List Storage) :
    DecisionOutput :=
  match provider inp with
  | some d => d
  | none => fallbackDecision energy_surplus energy_deficit ss

/-- Embeds the grid-purchase settlement, cooperative.py lines 136-147: returns
the pair (new community balance, applied energy_bought_from_grid). -/
def burnForPurchase (balance energy_bought_from_grid grid_price token_burn_rate : ℚ) :
    ℚ × ℚ :=
  let required_tokens := energy_bought_from_grid * grid_price
  if required_tokens ≤ balance then
    (balance - required_tokens - energy_bought_from_grid * token_burn_rate,
      energy_bought_from_grid)
  else
    (0, if 0 < grid_price then balance / grid_price else 0)

/-- The state threaded through the `for storage in self.storages` loop of
simulate_step (cooperative.py lines 110-147): the storages already visited
(with their updated levels), the two remaining amounts, the community balance
and the current value of the local variable energy_bought_from_grid. -/
structure LoopState where
  storagesDone : List Storage
  remaining_to_store : ℚ
  remaining_to_discharge : ℚ
  balance : ℚ
  energy_bought_from_grid : ℚ

/-- The token part of one iteration of the storage loop (cooperative.py lines
121-147) as a function of (balance, energy_bought_from_grid) alone: operations
a-d adjust the balance, then the grid purchase is settled. -/
def tokenUpdate (consumption production p2p_base_price sale_price grid_price
    token_mint_rate token_burn_rate : ℚ) (d : DecisionOutput) (be : ℚ × ℚ) : ℚ × ℚ :=
  burnForPurchase
    (be.1 + min consumption production * token_mint_rate
      + d.energy_added_to_storage * p2p_base_price
      + d.energy_sold_to_grid * sale_price
      - d.energy_bought_from_storages * p2p_base_price)
    be.2 grid_price token_burn_rate

/-- One iteration of the `for storage in self.storages` loop of simulate_step
(cooperative.py lines 113-147): charge then discharge the current storage with
the remaining amounts, then run the token-settlement operations 1-5 (which are
nested inside this loop in the source). -/
def stepBody (consumption production p2p_base_price sale_price grid_price
    token_mint_rate token_burn_rate : ℚ) (d : DecisionOutput)
    (ls : LoopState) (storage : Storage) : LoopState :=
  let p1 :=
    if 0 < ls.remaining_to_store then
      let r := storage.charge ls.remaining_to_store
      (r.2, ls.remaining_to_store - r.1)
    else (storage, ls.remaining_to_store)
  let p2 :=
    if 0 < ls.remaining_to_discharge then
      let r := p1.1.discharge ls.remaining_to_discharge
      (r.2, ls.remaining_to_discharge - r.1)
    else (p1.1, ls.remaining_to_discharge)
  let r5 :=
    tokenUpdate consumption production p2p_base_price sale_price grid_price
      token_mint_rate token_burn_rate d (ls.balance, ls.energy_bought_from_grid)
  { storagesDone := ls.storagesDone ++ [p2.1]
    remaining_to_store := p1.2
    remaining_to_discharge := p2.2
    balance := r5.1
    energy_bought_from_grid := r5.2 }

/-- Appending one storage level to the history entry of the matching name
(one execution of `self.history_storage[storage.name].append(...)`). -/
def updateOneHistory (st : Storage) (hs : List (String × List ℚ)) :
    List (String × List ℚ) :=
  hs.map (fun p => if p.1 = st.name then (p.1, p.2 ++ [st.current_level]) else p)

/-- Embeds the loop `for storage in self.storages:
self.history_storage[storage.name].append(storage.current_level)`
(cooperative.py lines 177-178). -/
def appendStorageHistory (ss : List Storage) (hs : List (String × List ℚ)) :
    List (String × List ℚ) :=
  ss.foldl (fun acc st => updateOneHistory st acc) hs

/-- The formatted log block of one step (cooperative.py lines 150-167).
Numbers are rendered with toString instead of the two-decimal format of Python;
no claim depends on the digits. -/
def logEntry (hd : HourRecord) (energy_surplus energy_deficit
    energy_added_to_storage energy_bought_from_storages energy_bought_from_grid
    energy_sold_to_grid grid_price sale_price p2p_base_price : ℚ)
    (storagesAfter : List Storage) (balanceAfter : ℚ) : String :=
  let header := "=== Current step: " ++ hd.date ++ " ===\n"
  let body :=
    "Total consumption: " ++ toString hd.consumption ++ " kWh\n"
      ++ "Total production: " ++ toString hd.production ++ " kWh\n"
      ++ "Energy surplus: " ++ toString energy_surplus ++ " kWh\n"
      ++ "Energy deficit: " ++ toString energy_deficit ++ " kWh\n"
      ++ "Energy added to storage: " ++ toString energy_added_to_storage ++ " kWh\n"
      ++ "Energy got from storages: " ++ toString energy_bought_from_storages ++ " kWh\n"
      ++ "Energy bought from grid: " ++ toString energy_bought_from_grid ++ " kWh\n"
      ++ "Energy sold to grid: " ++ toString energy_sold_to_grid ++ " kWh\n"
      ++ "Purchase grid price for this step: " ++ toString grid_price ++ " CT/kWh\n"
      ++ "Sale grid price for this step: " ++ toString sale_price ++ " CT/kWh\n"
      ++ "P2P base price for this step: " ++ toString p2p_base_price ++ " CT/kWh\n"
  let storageLines :=
    storagesAfter.foldl
      (fun acc st =>
        acc ++ "Storage " ++ st.name ++ " level after intervention: "
          ++ toString st.current_level ++ " kWh\n")
      ""
  header ++ body ++ storageLines
    ++ "Token balance: " ++ toString balanceAfter ++ " CT\n"

/-- The body of simulate_step after the current hour record and grid cost
record have been fetched successfully (cooperative.py lines 56-183). -/
def stepApply (provider : DecisionInput → Option DecisionOutput) (s : CoopState)
    (hd : HourRecord) (gc : GridCost)
    (p2p_base_price token_mint_rate token_burn_rate : ℚ) : CoopState :=
  let grid_price := gc.purchase
  let sale_price := gc.sale
  let energy_surplus := max 0 (hd.production - hd.consumption)
  let energy_deficit := max 0 (hd.consumption - hd.production)
  let request_payload := buildSnapshot s hd grid_price sale_price p2p_base_price
  let decision_output :=
    decisionFor provider request_payload energy_surplus energy_deficit s.storages
  let ls :=
    s.storages.foldl
      (stepBody hd.consumption hd.production p2p_base_price sale_price grid_price
        token_mint_rate token_burn_rate decision_output)
      (LoopState.mk [] decision_output.energy_added_to_storage
        decision_output.energy_bought_from_storages
        s.community_token_balance decision_output.energy_bought_from_grid)
  { s with
    storages := ls.storagesDone
    community_token_balance := ls.balance
    logs :=
      s.logs ++ [logEntry hd energy_surplus energy_deficit
        decision_output.energy_added_to_storage
        decision_output.energy_bought_from_storages
        ls.energy_bought_from_grid
        decision_output.energy_sold_to_grid
        grid_price sale_price p2p_base_price ls.storagesDone ls.balance]
    history_consumption := s.history_consumption ++ [hd.consumption]
    history_production := s.history_production ++ [hd.production]
    history_token_balance := s.history_token_balance ++ [ls.balance]
    history_p2p_price := s.history_p2p_price ++ [p2p_base_price]
    history_grid_price := s.history_grid_price ++ [sale_price]
    history_purchase_price := s.history_purchase_price ++ [grid_price]
    history_storage := appendStorageHistory ls.storagesDone s.history_storage
    history_energy_deficit := s.history_energy_deficit ++ [energy_deficit]
    history_energy_surplus := s.history_energy_surplus ++ [energy_surplus]
    history_energy_sold_to_grid :=
      s.history_energy_sold_to_grid ++ [decision_output.energy_sold_to_grid]
    history_tokens_gained_from_grid :=
      s.history_tokens_gained_from_grid
        ++ [decision_output.energy_sold_to_grid * sale_price] }

/-- Embeds Cooperative.simulate_step (cooperative.py lines 40-183).  The result
is `none` when the data fetch at lines 55 or 62-63 raises (hourly data missing
for the step, or an empty grid cost table making `step % len(grid_costs)`
raise); in that case the object state is unchanged, since the raise happens
before any mutation. -/
def simulateStep (provider : DecisionInput → Option DecisionOutput) (s : CoopState)
    (step : Nat) (p2p_base_price : ℚ) (hourly_data : List HourRecord)
    (grid_costs : List GridCost)
    (min_price token_mint_rate token_burn_rate : ℚ) : Option CoopState :=
  match hourly_data[step]? with
  | none => none
  | some hd =>
    match grid_costs[step % grid_costs.length]? with
    | none => none
    | some gc =>
      some (stepApply provider s hd gc p2p_base_price token_mint_rate token_burn_rate)

/-- The outcome of a run of simulate: `ok` with the final state, or `err` with
the object state at the moment an exception escaped. -/
inductive SimResult where
  | ok (s : CoopState)
  | err (s : CoopState)

/-- Whether a run ended with an escaped exception. -/
def SimResult.isErr : SimResult → Bool
  | .ok _ => false
  | .err _ => true

/-- The Cooperative state carried by the outcome (final state on success,
state at the raise on failure). -/
def SimResult.state : SimResult → CoopState
  | .ok s => s
  | .err s => s

/-- The loop `for step in range(steps)` of Cooperative.simulate, started at
index `start` with `remaining` steps to run. -/
def simulateFrom (provider : DecisionInput → Option DecisionOutput)
    (p2p_base_price min_price token_mint_rate token_burn_rate : ℚ)
    (hourly_data : List HourRecord) (grid_costs : List GridCost) :
    Nat → Nat → CoopState → SimResult
  | 0, _, s => SimResult.ok s
  | Nat.succ n, start, s =>
    match simulateStep provider s start p2p_base_price hourly_data grid_costs
        min_price token_mint_rate token_burn_rate with
    | some s2 =>
      simulateFrom provider p2p_base_price min_price token_mint_rate
        token_burn_rate hourly_data grid_costs n (start + 1) s2
    | none => SimResult.err s

/-- Embeds Cooperative.simulate (cooperative.py lines 185-207). -/
def simulate (provider : DecisionInput → Option DecisionOutput) (s : CoopState)
    (steps : Nat) (p2p_base_price min_price token_mint_rate token_burn_rate : ℚ)
    (hourly_data : List HourRecord) (grid_costs : List GridCost) : SimResult :=
  simulateFrom provider p2p_base_price min_price token_mint_rate token_burn_rate
    hourly_data grid_costs steps 0 s

/-- The final value of the local variable energy_bought_from_grid at the end of
the storage loop of simulate_step: the grid-purchase amount actually applied
(it is reduced by the insolvency branch at line 146). -/
def appliedGridPurchase (provider : DecisionInput → Option DecisionOutput)
    (s : CoopState) (hd : HourRecord) (gc : GridCost)
    (p2p_base_price token_mint_rate token_burn_rate : ℚ) : ℚ :=
  let grid_price := gc.purchase
  let sale_price := gc.sale
  let energy_surplus := max 0 (hd.production - hd.consumption)
  let energy_deficit := max 0 (hd.consumption - hd.production)
  let request_payload := buildSnapshot s hd grid_price sale_price p2p_base_price
  let decision_output :=
    decisionFor provider request_payload energy_surplus energy_deficit s.storages
  (s.storages.foldl
      (stepBody hd.consumption hd.production p2p_base_price sale_price grid_price
        token_mint_rate token_burn_rate decision_output)
      (LoopState.mk [] decision_output.energy_added_to_storage
        decision_output.energy_bought_from_storages
        s.community_token_balance decision_output.energy_bought_from_grid)).energy_bought_from_grid

/-- The decision applied by a step, as computed inside stepApply. -/
def stepDecision (provider : DecisionInput → Option DecisionOutput)
    (s : CoopState) (hd : HourRecord) (gc : GridCost) (p2p_base_price : ℚ) :
    DecisionOutput :=
  decisionFor provider (buildSnapshot s hd gc.purchase gc.sale p2p_base_price)
    (max 0 (hd.production - hd.consumption)) (max 0 (hd.consumption - hd.production))
    s.storages

/-- The loop state after the storage loop of a step, as computed inside
stepApply. -/
def stepLoopState (provider : DecisionInput → Option DecisionOutput)
    (s : CoopState) (hd : HourRecord) (gc : GridCost)
    (p2p_base_price token_mint_rate token_burn_rate : ℚ) : LoopState :=
  s.storages.foldl
    (stepBody hd.consumption hd.production p2p_base_price gc.sale gc.purchase
      token_mint_rate token_burn_rate (stepDecision provider s hd gc p2p_base_price))
    (LoopState.mk [] (stepDecision provider s hd gc p2p_base_price).energy_added_to_storage
      (stepDecision provider s hd gc p2p_base_price).energy_bought_from_storages
      s.community_token_balance
      (stepDecision provider s hd gc p2p_base_price).energy_bought_from_grid)

/-- Iterated update of a single history entry by a list of storages: the
pointwise effect of `appendStorageHistory` on one (name, series) pair. -/
def chainUpdate (ss : List Storage) (p : String × List ℚ) : String × List ℚ :=
  ss.foldl
    (fun q st => if q.1 = st.name then (q.1, q.2 ++ [st.current_level]) else q) p

/-- All per-step history series of a state have length `n`, the per-storage
series included, while history_energy_sold_to_p2p (initialised at line 35 and
never appended) has length 0. -/
def HistLens (s : CoopState) (n : Nat) : Prop :=
  s.history_consumption.length = n ∧
  s.history_production.length = n ∧
  s.history_token_balance.length = n ∧
  s.history_p2p_price.length = n ∧
  s.history_grid_price.length = n ∧
  s.history_purchase_price.length = n ∧
  s.history_energy_deficit.length = n ∧
  s.history_energy_surplus.length = n ∧
  s.history_energy_sold_to_grid.length = n ∧
  s.history_tokens_gained_from_grid.length = n ∧
  s.logs.length = n ∧
  (∀ p ∈ s.history_storage, p.2.length = n) ∧
  s.history_energy_sold_to_p2p.length = 0

/-- The keys of the per-storage history dict coincide with the storage names,
and those names are distinct (the spec declares names unique identifiers). -/
def StorageKeys (s : CoopState) : Prop :=
  s.history_storage.map Prod.fst = s.storages.map Storage.name ∧
  (s.storages.map Storage.name).Nodup

/-- Total headroom of a list of storages satisfying the storage invariant is
non-negative. -/
lemma totalHeadroom_nonneg {ss : List Storage}
    (hst : ∀ st ∈ ss, 0 ≤ st.current_level ∧ st.current_level ≤ st.capacity) :
    0 ≤ totalHeadroom ss := by
  refine List.sum_nonneg ?_
  intro x hx
  obtain ⟨st, hstm, rfl⟩ := List.mem_map.mp hx
  have h := hst st hstm
  linarith [h.1, h.2]

/-- Total stored level of a list of storages satisfying the storage invariant
is non-negative. -/
lemma totalLevel_nonneg {ss : List Storage}
    (hst : ∀ st ∈ ss, 0 ≤ st.current_level ∧ st.current_level ≤ st.capacity) :
    0 ≤ totalLevel ss := by
  refine List.sum_nonneg ?_
  intro x hx
  obtain ⟨st, hstm, rfl⟩ := List.mem_map.mp hx
  exact (hst st hstm).1

/-- C3: with a balance of 50 at the settlement point, a grid purchase price of
10 and a requested grid purchase of 10 (cost 100 > 50), the settlement sets
the applied grid purchase to the affordable energy 5 = 50 / 10 and the balance
to exactly 0; and in the insolvent branch with a non-positive unit price the
affordable energy is 0 (no division is performed). -/
theorem c3_insolvency_fill :
    (∀ token_burn_rate : ℚ, burnForPurchase 50 10 10 token_burn_rate = (0, 5)) ∧
    (∀ balance energy grid_price token_burn_rate : ℚ, grid_price ≤ 0 →
      ¬ (energy * grid_price ≤ balance) →
      burnForPurchase balance energy grid_price token_burn_rate = (0, 0)) := by
  constructor
  · intro br
    unfold burnForPurchase
    norm_num
  · intro bal e gp br hgp hins
    unfold burnForPurchase
    rw [if_neg hins, if_neg (not_lt.mpr hgp)]

/-- Witness for C3: both branches of the theorem instantiated at concrete
inputs. -/
theorem c3_insolvency_fill_witness :
    burnForPurchase 50 10 10 (1 / 10) = (0, 5) ∧
    burnForPurchase (-5) 0 (-1) 1 = (0, 0) :=
  ⟨c3_insolvency_fill.1 (1 / 10),
    c3_insolvency_fill.2 (-5) 0 (-1) 1 (by norm_num) (by norm_num)⟩

/-- C6: for a snapshot with non-negative production and consumption and
storages satisfying the storage invariant (hence non-negative total headroom
and level), the fallback decision splits the surplus exactly between storage
and grid sale, splits the deficit exactly between storage draw and grid
purchase, and all four fields are non-negative. -/
theorem c6_fallback_conservation (production consumption : ℚ) (ss : List Storage)
    (hp : 0 ≤ production) (hc : 0 ≤ consumption)
    (hst : ∀ st ∈ ss, 0 ≤ st.current_level ∧ st.current_level ≤ st.capacity) :
    (fallbackDecision (max 0 (production - consumption))
        (max 0 (consumption - production)) ss).energy_added_to_storage
      + (fallbackDecision (max 0 (production - consumption))
          (max 0 (consumption - production)) ss).energy_sold_to_grid
      = max 0 (production - consumption) ∧
    (fallbackDecision (max 0 (production - consumption))
        (max 0 (consumption - production)) ss).energy_bought_from_storages
      + (fallbackDecision (max 0 (production - consumption))
          (max 0 (consumption - production)) ss).energy_bought_from_grid
      = max 0 (consumption - production) ∧
    0 ≤ (fallbackDecision (max 0 (production - consumption))
        (max 0 (consumption - production)) ss).energy_added_to_storage ∧
    0 ≤ (fallbackDecision (max 0 (production - consumption))
        (max 0 (consumption - production)) ss).energy_sold_to_grid ∧
    0 ≤ (fallbackDecision (max 0 (production - consumption))
        (max 0 (consumption - production)) ss).energy_bought_from_storages ∧
    0 ≤ (fallbackDecision (max 0 (production - consumption))
        (max 0 (consumption - production)) ss).energy_bought_from_grid := by
  have hh : 0 ≤ totalHeadroom ss := totalHeadroom_nonneg hst
  have hl : 0 ≤ totalLevel ss := totalLevel_nonneg hst
  have hs0 : (0 : ℚ) ≤ max 0 (production - consumption) := le_max_left 0 _
  have hd0 : (0 : ℚ) ≤ max 0 (consumption - production) := le_max_left 0 _
  have hminS : min (max 0 (production - consumption)) (totalHeadroom ss)
      ≤ max 0 (production - consumption) := min_le_left _ _
  have hminD : min (max 0 (consumption - production)) (totalLevel ss)
      ≤ max 0 (consumption - production) := min_le_left _ _
  unfold fallbackDecision
  refine ⟨?_, ?_, ?_, ?_, ?_, ?_⟩
  · simp only
    rw [max_eq_right (sub_nonneg.mpr hminS)]
    ring
  · simp only
    rw [max_eq_right (sub_nonneg.mpr hminD)]
    ring
  · exact le_min hs0 hh
  · exact le_max_left 0 _
  · exact le_min hd0 hl
  · exact le_max_left 0 _

/-- Witness for C6: the theorem applied to a concrete snapshot with
production 3, consumption 1 and one storage of capacity 10 at level 2. -/
theorem c6_fallback_conservation_witness :
    (fallbackDecision (max 0 ((3 : ℚ) - 1)) (max 0 ((1 : ℚ) - 3))
        [⟨"A", 10, 2⟩]).energy_added_to_storage
      + (fallbackDecision (max 0 ((3 : ℚ) - 1)) (max 0 ((1 : ℚ) - 3))
          [⟨"A", 10, 2⟩]).energy_sold_to_grid
      = max 0 ((3 : ℚ) - 1) :=
  (c6_fallback_conservation 3 1 [⟨"A", 10, 2⟩] (by norm_num) (by norm_num)
    (by intro st hstm; simp at hstm; rw [hstm]; norm_num)).1

/-- The token components of one storage-loop iteration depend only on the
token components of the incoming loop state. -/
lemma stepBody_tokens (consumption production p2p_base_price sale_price grid_price
    token_mint_rate token_burn_rate : ℚ) (d : DecisionOutput)
    (ls : LoopState) (st : Storage) :
    ((stepBody consumption production p2p_base_price sale_price grid_price
        token_mint_rate token_burn_rate d ls st).balance,
      (stepBody consumption production p2p_base_price sale_price grid_price
        token_mint_rate token_burn_rate d ls st).energy_bought_from_grid)
      = tokenUpdate consumption production p2p_base_price sale_price grid_price
          token_mint_rate token_burn_rate d (ls.balance, ls.energy_bought_from_grid) := rfl

/-- The token components of the whole storage loop are the token update
iterated once per storage: they are a function of the requested decision
amounts, the prices and the number of storages alone, never of the levels or
capacities of the storages nor of the amounts they actually absorb or
release. -/
lemma foldl_stepBody_tokens (consumption production p2p_base_price sale_price
    grid_price token_mint_rate token_burn_rate : ℚ) (d : DecisionOutput) :
    ∀ (ss : List Storage) (ls : LoopState),
    ((ss.foldl (stepBody consumption production p2p_base_price sale_price grid_price
        token_mint_rate token_burn_rate d) ls).balance,
      (ss.foldl (stepBody consumption production p2p_base_price sale_price grid_price
        token_mint_rate token_burn_rate d) ls).energy_bought_from_grid)
      = (tokenUpdate consumption production p2p_base_price sale_price grid_price
          token_mint_rate token_burn_rate d)^[ss.length]
          (ls.balance, ls.energy_bought_from_grid) := by
  intro ss
  induction ss with
  | nil => intro ls; rfl
  | cons st rest ih =>
    intro ls
    rw [List.foldl_cons, List.length_cons, Function.iterate_succ_apply,
      ← stepBody_tokens consumption production p2p_base_price sale_price grid_price
        token_mint_rate token_burn_rate d ls st]
    exact ih _

/-- After one token update the balance is never below the additional burn on
the (possibly reduced) grid purchase: the solvent branch subtracts the full
cost only when affordable and then the unclamped burn, the insolvent branch
sets the balance to exactly 0. -/
lemma tokenUpdate_bound (consumption production p2p_base_price sale_price
    grid_price token_mint_rate token_burn_rate : ℚ) (d : DecisionOutput)
    (be : ℚ × ℚ) (hbr : 0 ≤ token_burn_rate) :
    -(max 0 (tokenUpdate consumption production p2p_base_price sale_price grid_price
        token_mint_rate token_burn_rate d be).2 * token_burn_rate)
      ≤ (tokenUpdate consumption production p2p_base_price sale_price grid_price
          token_mint_rate token_burn_rate d be).1 := by
  unfold tokenUpdate burnForPurchase
  simp only
  split
  · rename_i hsolv
    dsimp only
    rcases le_or_lt 0 be.2 with h2 | h2
    · rw [max_eq_right h2]
      nlinarith
    · rw [max_eq_left h2.le]
      have hz : be.2 * token_burn_rate ≤ 0 :=
        mul_nonpos_iff.mpr (Or.inr ⟨h2.le, hbr⟩)
      nlinarith
  · have hz : 0 ≤ max 0 (if 0 < grid_price then
        (be.1 + min consumption production * token_mint_rate
          + d.energy_added_to_storage * p2p_base_price
          + d.energy_sold_to_grid * sale_price
          - d.energy_bought_from_storages * p2p_base_price) / grid_price else 0)
        * token_burn_rate :=
      mul_nonneg (le_max_left 0 _) hbr
    simp only
    linarith

/-- Iterating the token update preserves the lower bound, provided it holds of
the initial pair. -/
lemma tokenUpdate_iterate_bound (consumption production p2p_base_price sale_price
    grid_price token_mint_rate token_burn_rate : ℚ) (d : DecisionOutput)
    (hbr : 0 ≤ token_burn_rate) :
    ∀ (k : Nat) (be : ℚ × ℚ),
      -(max 0 be.2 * token_burn_rate) ≤ be.1 →
      -(max 0 ((tokenUpdate consumption production p2p_base_price sale_price grid_price
          token_mint_rate token_burn_rate d)^[k] be).2 * token_burn_rate)
        ≤ ((tokenUpdate consumption production p2p_base_price sale_price grid_price
            token_mint_rate token_burn_rate d)^[k] be).1 := by
  intro k
  induction k with
  | zero => intro be h0; exact h0
  | succ n ih =>
    intro be _
    rw [Function.iterate_succ_apply]
    exact ih _ (tokenUpdate_bound consumption production p2p_base_price sale_price
      grid_price token_mint_rate token_burn_rate d be hbr)

/-- Counterexample to C2: starting a step with balance 100, a grid purchase of
10 kWh at price 10 (cost 100, affordable) and burn rate 1/10, the additional
burn of 1 token is not clamped and the step ends with balance -1 < 0. -/
theorem c2_counterexample :
    ((simulateStep (fun _ => some { energy_bought_from_grid := 10 })
        (Cooperative.init [⟨"A", 0, 0⟩] 100) 0 0 [⟨0, "d", 0, 0⟩] [⟨10, 0⟩]
        0 0 (1 / 10)).map
      (fun s => s.community_token_balance)) = some (-1) ∧ ((-1 : ℚ) < 0) := by
  constructor
  · norm_num [simulateStep, stepApply, stepBody, tokenUpdate, burnForPurchase,
      decisionFor, fallbackDecision, buildSnapshot, Cooperative.init,
      totalHeadroom, totalLevel, Storage.charge, Storage.discharge]
  · norm_num

/-- C2 amended: with a non-negative burn rate and a non-negative starting
balance, the balance after a step is bounded below by the negation of the
additional burn on the applied grid purchase, -(max 0 applied * burn_rate);
the insolvent branch clamps at exactly 0, but the additional burn of the
solvent branch is not clamped, so the balance can end a step negative by at
most that burn (and with burn rate 0 the invariant balance >= 0 holds). -/
theorem c2_amended (provider : DecisionInput → Option DecisionOutput)
    (s : CoopState) (hd : HourRecord) (gc : GridCost)
    (p2p_base_price token_mint_rate token_burn_rate : ℚ)
    (hbr : 0 ≤ token_burn_rate) (hbal : 0 ≤ s.community_token_balance) :
    -(max 0 (appliedGridPurchase provider s hd gc p2p_base_price token_mint_rate
        token_burn_rate) * token_burn_rate)
      ≤ (stepApply provider s hd gc p2p_base_price token_mint_rate
          token_burn_rate).community_token_balance := by
  have hfold := foldl_stepBody_tokens hd.consumption hd.production p2p_base_price
    gc.sale gc.purchase token_mint_rate token_burn_rate
    (decisionFor provider (buildSnapshot s hd gc.purchase gc.sale p2p_base_price)
      (max 0 (hd.production - hd.consumption)) (max 0 (hd.consumption - hd.production))
      s.storages)
    s.storages
    (LoopState.mk []
      (decisionFor provider (buildSnapshot s hd gc.purchase gc.sale p2p_base_price)
        (max 0 (hd.production - hd.consumption)) (max 0 (hd.consumption - hd.production))
        s.storages).energy_added_to_storage
      (decisionFor provider (buildSnapshot s hd gc.purchase gc.sale p2p_base_price)
        (max 0 (hd.production - hd.consumption)) (max 0 (hd.consumption - hd.production))
        s.storages).energy_bought_from_storages
      s.community_token_balance
      (decisionFor provider (buildSnapshot s hd gc.purchase gc.sale p2p_base_price)
        (max 0 (hd.production - hd.consumption)) (max 0 (hd.consumption - hd.production))
        s.storages).energy_bought_from_grid)
  have hb := congrArg Prod.fst hfold
  have he := congrArg Prod.snd hfold
  simp only at hb he
  have hstep : (stepApply provider s hd gc p2p_base_price token_mint_rate
      token_burn_rate).community_token_balance
      = (s.storages.foldl
          (stepBody hd.consumption hd.production p2p_base_price gc.sale gc.purchase
            token_mint_rate token_burn_rate
            (decisionFor provider (buildSnapshot s hd gc.purchase gc.sale p2p_base_price)
              (max 0 (hd.production - hd.consumption))
              (max 0 (hd.consumption - hd.production)) s.storages))
          (LoopState.mk []
            (decisionFor provider (buildSnapshot s hd gc.purchase gc.sale p2p_base_price)
              (max 0 (hd.production - hd.consumption))
              (max 0 (hd.consumption - hd.production)) s.storages).energy_added_to_storage
            (decisionFor provider (buildSnapshot s hd gc.purchase gc.sale p2p_base_price)
              (max 0 (hd.production - hd.consumption))
              (max 0 (hd.consumption - hd.production)) s.storages).energy_bought_from_storages
            s.community_token_balance
            (decisionFor provider (buildSnapshot s hd gc.purchase gc.sale p2p_base_price)
              (max 0 (hd.production - hd.consumption))
              (max 0 (hd.consumption - hd.production)) s.storages).energy_bought_from_grid)).balance := rfl
  have happl : appliedGridPurchase provider s hd gc p2p_base_price token_mint_rate
      token_burn_rate
      = (s.storages.foldl
          (stepBody hd.consumption hd.production p2p_base_price gc.sale gc.purchase
            token_mint_rate token_burn_rate
            (decisionFor provider (buildSnapshot s hd gc.purchase gc.sale p2p_base_price)
              (max 0 (hd.production - hd.consumption))
              (max 0 (hd.consumption - hd.production)) s.storages))
          (LoopState.mk []
            (decisionFor provider (buildSnapshot s hd gc.purchase gc.sale p2p_base_price)
              (max 0 (hd.production - hd.consumption))
              (max 0 (hd.consumption - hd.production)) s.storages).energy_added_to_storage
            (decisionFor provider (buildSnapshot s hd gc.purchase gc.sale p2p_base_price)
              (max 0 (hd.production - hd.consumption))
              (max 0 (hd.consumption - hd.production)) s.storages).energy_bought_from_storages
            s.community_token_balance
            (decisionFor provider (buildSnapshot s hd gc.purchase gc.sale p2p_base_price)
              (max 0 (hd.production - hd.consumption))
              (max 0 (hd.consumption - hd.production)) s.storages).energy_bought_from_grid)).energy_bought_from_grid := rfl
  rw [hstep, happl, hb, he]
  refine tokenUpdate_iterate_bound hd.consumption hd.production p2p_base_price
    gc.sale gc.purchase token_mint_rate token_burn_rate _ hbr _ _ ?_
  have hz : 0 ≤ max 0
      (decisionFor provider (buildSnapshot s hd gc.purchase gc.sale p2p_base_price)
        (max 0 (hd.production - hd.consumption)) (max 0 (hd.consumption - hd.production))
        s.storages).energy_bought_from_grid * token_burn_rate :=
    mul_nonneg (le_max_left 0 _) hbr
  dsimp only
  linarith

/-- Witness for C2 amended: the counterexample scenario satisfies the bound,
the final balance -1 being exactly the negated additional burn -(10 * 1/10). -/
theorem c2_amended_witness :
    -(max 0 (appliedGridPurchase (fun _ => some { energy_bought_from_grid := 10 })
        (Cooperative.init [⟨"A", 0, 0⟩] 100) ⟨0, "d", 0, 0⟩ ⟨10, 0⟩ 0 0 (1 / 10))
        * (1 / 10))
      ≤ (stepApply (fun _ => some { energy_bought_from_grid := 10 })
          (Cooperative.init [⟨"A", 0, 0⟩] 100) ⟨0, "d", 0, 0⟩ ⟨10, 0⟩ 0 0
          (1 / 10)).community_token_balance :=
  c2_amended (fun _ => some { energy_bought_from_grid := 10 })
    (Cooperative.init [⟨"A", 0, 0⟩] 100) ⟨0, "d", 0, 0⟩ ⟨10, 0⟩ 0 0 (1 / 10)
    (by norm_num) (by norm_num [Cooperative.init])

/-- C8: the token accounting of a step is the token update iterated once per
storage on the requested decision amounts: the balance and the applied grid
purchase after the storage loop are a function of the decision fields, the
prices and rates, and the number of storages only — the amounts actually
absorbed or released by the storage units (which the loop may cap below the
request) never enter the token ledger. -/
theorem c8_requested_amounts (consumption production p2p_base_price sale_price
    grid_price token_mint_rate token_burn_rate : ℚ) (d : DecisionOutput)
    (ss : List Storage) (ls : LoopState) :
    ((ss.foldl (stepBody consumption production p2p_base_price sale_price grid_price
        token_mint_rate token_burn_rate d) ls).balance,
      (ss.foldl (stepBody consumption production p2p_base_price sale_price grid_price
        token_mint_rate token_burn_rate d) ls).energy_bought_from_grid)
      = (tokenUpdate consumption production p2p_base_price sale_price grid_price
          token_mint_rate token_burn_rate d)^[ss.length]
          (ls.balance, ls.energy_bought_from_grid) :=
  foldl_stepBody_tokens consumption production p2p_base_price sale_price grid_price
    token_mint_rate token_burn_rate d ss ls

/-- C1 evaluated at the failing input: with two storages and an all-zero
decision, consumption = production = 1 and mint rate 1, the settlement block
runs once per storage and the step mints 2 tokens, not the single token
min(consumption, production) * token_mint_rate = 1 that a once-per-step
settlement would mint. -/
theorem c1_eval :
    ((simulateStep (fun _ => some {}) (Cooperative.init [⟨"A", 10, 0⟩, ⟨"B", 10, 0⟩] 0)
        0 1 [⟨0, "d", 1, 1⟩] [⟨1, 1⟩] 0 1 0).map
      (fun s => s.community_token_balance)) = some 2 ∧
    (2 : ℚ) ≠ min 1 1 * 1 := by
  constructor
  · norm_num [simulateStep, stepApply, stepBody, tokenUpdate, burnForPurchase,
      decisionFor, fallbackDecision, buildSnapshot, Cooperative.init,
      totalHeadroom, totalLevel, Storage.charge, Storage.discharge]
  · norm_num

/-- Counterexample to C7: the engine applies a negative decision field
unchanged — with energy_bought_from_storages = -5 and p2p price 1, the burn of
step d adds 5 tokens and the step ends at balance 5, whereas normalizing the
field to 0 before applying (the identical step with the zero decision) ends at
balance 0. -/
theorem c7_counterexample :
    ((simulateStep (fun _ => some { energy_bought_from_storages := -5 })
        (Cooperative.init [⟨"A", 0, 0⟩] 0) 0 1 [⟨0, "d", 0, 0⟩] [⟨1, 0⟩] 0 0 0).map
      (fun s => s.community_token_balance)) = some 5 ∧
    ((simulateStep (fun _ => some { energy_bought_from_storages := 0 })
        (Cooperative.init [⟨"A", 0, 0⟩] 0) 0 1 [⟨0, "d", 0, 0⟩] [⟨1, 0⟩] 0 0 0).map
      (fun s => s.community_token_balance)) = some 0 ∧
    (5 : ℚ) ≠ 0 := by
  refine ⟨?_, ?_, by norm_num⟩
  · norm_num [simulateStep, stepApply, stepBody, tokenUpdate, burnForPurchase,
      decisionFor, fallbackDecision, buildSnapshot, Cooperative.init,
      totalHeadroom, totalLevel, Storage.charge, Storage.discharge]
  · norm_num [simulateStep, stepApply, stepBody, tokenUpdate, burnForPurchase,
      decisionFor, fallbackDecision, buildSnapshot, Cooperative.init,
      totalHeadroom, totalLevel, Storage.charge, Storage.discharge]

/-- C7 amended: a field missing from the decision response defaults to 0 (the
DecisionOutput constructor and from_dict defaults), but no normalization of
negative fields happens — the engine applies every successfully returned
decision exactly as returned. -/
theorem c7_amended :
    DecisionOutput.fromDict none none none none = ({} : DecisionOutput) ∧
    (∀ (provider : DecisionInput → Option DecisionOutput) (inp : DecisionInput)
      (energy_surplus energy_deficit : ℚ) (ss : List Storage) (d : DecisionOutput),
      provider inp = some d →
      decisionFor provider inp energy_surplus energy_deficit ss = d) := by
  constructor
  · rfl
  · intro provider inp su de ss d h
    unfold decisionFor
    rw [h]

/-- Witness for C7 amended: a provider answering a decision with a negative
field has that decision applied verbatim. -/
theorem c7_amended_witness :
    decisionFor (fun _ => some ⟨1, 2, -3, 4⟩) ⟨0, 0, 0, [], 0, 0, 0, 0⟩ 0 0 []
      = ⟨1, 2, -3, 4⟩ :=
  c7_amended.2 (fun _ => some ⟨1, 2, -3, 4⟩) ⟨0, 0, 0, [], 0, 0, 0, 0⟩ 0 0 []
    ⟨1, 2, -3, 4⟩ rfl

/-- Characterisation of a successful simulate_step call: both data fetches
succeed and the result is the step body applied to the fetched records. -/
lemma simulateStep_eq_some_iff {provider : DecisionInput → Option DecisionOutput}
    {s : CoopState} {step : Nat} {p2p_base_price : ℚ} {hourly : List HourRecord}
    {grid : List GridCost} {min_price token_mint_rate token_burn_rate : ℚ}
    {s2 : CoopState} :
    simulateStep provider s step p2p_base_price hourly grid min_price
        token_mint_rate token_burn_rate = some s2 ↔
      ∃ hd gc, hourly[step]? = some hd ∧ grid[step % grid.length]? = some gc ∧
        s2 = stepApply provider s hd gc p2p_base_price token_mint_rate
          token_burn_rate := by
  unfold simulateStep
  cases h1 : hourly[step]? with
  | none => simp
  | some hd =>
    cases h2 : grid[step % grid.length]? with
    | none => simp
    | some gc => simp [eq_comm]

/-- A simulate_step call succeeds whenever the hourly data covers the step and
the grid cost table is non-empty. -/
lemma simulateStep_succeeds {provider : DecisionInput → Option DecisionOutput}
    {s : CoopState} {step : Nat} {p2p_base_price : ℚ} {hourly : List HourRecord}
    {grid : List GridCost} {min_price token_mint_rate token_burn_rate : ℚ}
    (hi : step < hourly.length) (hg : grid ≠ []) :
    ∃ hd gc, hourly[step]? = some hd ∧ grid[step % grid.length]? = some gc ∧
      simulateStep provider s step p2p_base_price hourly grid min_price
          token_mint_rate token_burn_rate
        = some (stepApply provider s hd gc p2p_base_price token_mint_rate
            token_burn_rate) := by
  have hmod : step % grid.length < grid.length :=
    Nat.mod_lt _ (List.length_pos.mpr hg)
  refine ⟨hourly[step], grid[step % grid.length],
    List.getElem?_eq_getElem hi, List.getElem?_eq_getElem hmod, ?_⟩
  exact simulateStep_eq_some_iff.mpr
    ⟨hourly[step], grid[step % grid.length],
      List.getElem?_eq_getElem hi, List.getElem?_eq_getElem hmod, rfl⟩

/-- A failed simulate_step call is exactly a step whose hourly record is
missing or whose grid cost table is empty. -/
lemma simulateStep_eq_none_of {provider : DecisionInput → Option DecisionOutput}
    {s : CoopState} {step : Nat} {p2p_base_price : ℚ} {hourly : List HourRecord}
    {grid : List GridCost} {min_price token_mint_rate token_burn_rate : ℚ}
    (hi : hourly.length ≤ step) :
    simulateStep provider s step p2p_base_price hourly grid min_price
        token_mint_rate token_burn_rate = none := by
  unfold simulateStep
  rw [List.getElem?_eq_none hi]

/-- The log of a step grows by exactly one block. -/
lemma stepApply_logs_length (provider : DecisionInput → Option DecisionOutput)
    (s : CoopState) (hd : HourRecord) (gc : GridCost)
    (p2p_base_price token_mint_rate token_burn_rate : ℚ) :
    (stepApply provider s hd gc p2p_base_price token_mint_rate
        token_burn_rate).logs.length = s.logs.length + 1 := by
  simp [stepApply]

/-- With enough hourly data and a non-empty grid table the simulation loop
terminates normally from every start index and state, for every provider. -/
lemma simulateFrom_ok {provider : DecisionInput → Option DecisionOutput}
    {p2p_base_price min_price token_mint_rate token_burn_rate : ℚ}
    {hourly : List HourRecord} {grid : List GridCost} (hg : grid ≠ []) :
    ∀ (n i : Nat) (s : CoopState), i + n ≤ hourly.length →
      ∃ sf, simulateFrom provider p2p_base_price min_price token_mint_rate
          token_burn_rate hourly grid n i s = SimResult.ok sf := by
  intro n
  induction n with
  | zero => intro i s _; exact ⟨s, rfl⟩
  | succ m ih =>
    intro i s h
    have hi : i < hourly.length := by omega
    obtain ⟨hd, gc, _, _, hstep⟩ :=
      @simulateStep_succeeds provider s i p2p_base_price hourly grid min_price
        token_mint_rate token_burn_rate hi hg
    simp only [simulateFrom, hstep]
    exact ih (i + 1) _ (by omega)

/-- C5: when the remote decision call fails, the data fetches of the step still
succeed, the step executes and appends its log block (it is neither skipped
nor retried), the decision the engine applies is exactly the LocalHeuristic
of the step snapshot, and no exception escapes simulate (the run returns
normally for any start state whenever the data covers the requested steps). -/
theorem c5_remote_failure_fallback (provider : DecisionInput → Option DecisionOutput)
    (s : CoopState) (step : Nat)
    (p2p_base_price min_price token_mint_rate token_burn_rate : ℚ)
    (hourly : List HourRecord) (grid : List GridCost)
    (hfail : ∀ inp, provider inp = none)
    (hi : step < hourly.length) (hg : grid ≠ []) :
    (∃ hd gc, hourly[step]? = some hd ∧ grid[step % grid.length]? = some gc ∧
      simulateStep provider s step p2p_base_price hourly grid min_price
          token_mint_rate token_burn_rate
        = some (stepApply provider s hd gc p2p_base_price token_mint_rate
            token_burn_rate) ∧
      decisionFor provider (buildSnapshot s hd gc.purchase gc.sale p2p_base_price)
          (max 0 (hd.production - hd.consumption))
          (max 0 (hd.consumption - hd.production)) s.storages
        = LocalHeuristic (buildSnapshot s hd gc.purchase gc.sale p2p_base_price) ∧
      (stepApply provider s hd gc p2p_base_price token_mint_rate
          token_burn_rate).logs.length = s.logs.length + 1) ∧
    (∀ (steps : Nat) (s0 : CoopState), steps ≤ hourly.length →
      ∃ sf, simulate provider s0 steps p2p_base_price min_price token_mint_rate
          token_burn_rate hourly grid = SimResult.ok sf) := by
  constructor
  · obtain ⟨hd, gc, h1, h2, hstep⟩ :=
      @simulateStep_succeeds provider s step p2p_base_price hourly grid min_price
        token_mint_rate token_burn_rate hi hg
    refine ⟨hd, gc, h1, h2, hstep, ?_, stepApply_logs_length _ _ _ _ _ _ _⟩
    unfold decisionFor
    rw [hfail]
    unfold fallbackDecision LocalHeuristic buildSnapshot totalHeadroom totalLevel
    simp only [List.map_map, Function.comp]
    have hhead :
        min (max 0 (hd.production - hd.consumption))
          ((s.storages.map (fun st => st.capacity - st.current_level)).sum)
        ≤ max 0 (hd.production - hd.consumption) := min_le_left _ _
    have hlev :
        min (max 0 (hd.consumption - hd.production))
          ((s.storages.map (fun st => st.current_level)).sum)
        ≤ max 0 (hd.consumption - hd.production) := min_le_left _ _
    simp only [DecisionOutput.mk.injEq]
    refine ⟨rfl, ?_, rfl, ?_⟩
    · rw [max_eq_right (sub_nonneg.mpr hhead)]
      rfl
    · rw [max_eq_right (sub_nonneg.mpr hlev)]
      rfl
  · intro steps s0 hsteps
    exact simulateFrom_ok hg steps 0 s0 (by omega)

/-- Witness for C5: an always-failing provider on a one-step data set. -/
theorem c5_remote_failure_fallback_witness :
    (∃ hd gc, ([⟨0, "d", 2, 3⟩] : List HourRecord)[0]? = some hd ∧
      ([⟨1, 1⟩] : List GridCost)[0 % ([⟨1, 1⟩] : List GridCost).length]? = some gc ∧
      simulateStep (fun _ => none) (Cooperative.init [⟨"A", 10, 0⟩] 0) 0 1
          [⟨0, "d", 2, 3⟩] [⟨1, 1⟩] 0 0 0
        = some (stepApply (fun _ => none) (Cooperative.init [⟨"A", 10, 0⟩] 0) hd gc 1 0 0) ∧
      decisionFor (fun _ => none)
          (buildSnapshot (Cooperative.init [⟨"A", 10, 0⟩] 0) hd gc.purchase gc.sale 1)
          (max 0 (hd.production - hd.consumption))
          (max 0 (hd.consumption - hd.production))
          (Cooperative.init [⟨"A", 10, 0⟩] 0).storages
        = LocalHeuristic
            (buildSnapshot (Cooperative.init [⟨"A", 10, 0⟩] 0) hd gc.purchase gc.sale 1) ∧
      (stepApply (fun _ => none) (Cooperative.init [⟨"A", 10, 0⟩] 0) hd gc 1 0 0).logs.length
        = (Cooperative.init [⟨"A", 10, 0⟩] 0).logs.length + 1) ∧
    (∀ (steps : Nat) (s0 : CoopState), steps ≤ ([⟨0, "d", 2, 3⟩] : List HourRecord).length →
      ∃ sf, simulate (fun _ => none) s0 steps 1 0 0 0 [⟨0, "d", 2, 3⟩] [⟨1, 1⟩]
        = SimResult.ok sf) :=
  c5_remote_failure_fallback (fun _ => none) (Cooperative.init [⟨"A", 10, 0⟩] 0) 0
    1 0 0 0 [⟨0, "d", 2, 3⟩] [⟨1, 1⟩] (fun _ => rfl) (by norm_num)
    (List.cons_ne_nil _ _)

/-- C10: a simulate_step call on a Cooperative with no storage units leaves
the community token balance exactly unchanged (the whole token-settlement
block, nested in the storage loop, is skipped), while the log and each
appended history series still grow by one entry and the per-storage history
dict stays empty of appends. -/
theorem c10_no_storages_frame (provider : DecisionInput → Option DecisionOutput)
    (s : CoopState) (step : Nat)
    (p2p_base_price min_price token_mint_rate token_burn_rate : ℚ)
    (hourly : List HourRecord) (grid : List GridCost) (s2 : CoopState)
    (hempty : s.storages = [])
    (hstep : simulateStep provider s step p2p_base_price hourly grid min_price
        token_mint_rate token_burn_rate = some s2) :
    s2.community_token_balance = s.community_token_balance ∧
    s2.logs.length = s.logs.length + 1 ∧
    s2.history_consumption.length = s.history_consumption.length + 1 ∧
    s2.history_production.length = s.history_production.length + 1 ∧
    s2.history_token_balance.length = s.history_token_balance.length + 1 ∧
    s2.history_p2p_price.length = s.history_p2p_price.length + 1 ∧
    s2.history_grid_price.length = s.history_grid_price.length + 1 ∧
    s2.history_purchase_price.length = s.history_purchase_price.length + 1 ∧
    s2.history_energy_deficit.length = s.history_energy_deficit.length + 1 ∧
    s2.history_energy_surplus.length = s.history_energy_surplus.length + 1 ∧
    s2.history_energy_sold_to_grid.length = s.history_energy_sold_to_grid.length + 1 ∧
    s2.history_tokens_gained_from_grid.length
      = s.history_tokens_gained_from_grid.length + 1 ∧
    s2.history_storage = s.history_storage := by
  obtain ⟨hd, gc, h1, h2, rfl⟩ := simulateStep_eq_some_iff.mp hstep
  simp [stepApply, hempty, appendStorageHistory]

/-- Witness for C10: a concrete step on a Cooperative with no storages. -/
theorem c10_no_storages_frame_witness :
    ∃ s2, simulateStep (fun _ => none) (Cooperative.init [] 7) 0 1
        [⟨0, "d", 2, 3⟩] [⟨1, 1⟩] 0 0 0 = some s2 ∧
      s2.community_token_balance = (Cooperative.init [] 7).community_token_balance := by
  obtain ⟨hd, gc, h1, h2, hstep⟩ :=
    @simulateStep_succeeds (fun _ => none) (Cooperative.init [] 7) 0 1
      [⟨0, "d", 2, 3⟩] [⟨1, 1⟩] 0 0 0 (by norm_num) (List.cons_ne_nil _ _)
  refine ⟨_, hstep, ?_⟩
  exact (c10_no_storages_frame (fun _ => none) (Cooperative.init [] 7) 0 1 0 0 0
    [⟨0, "d", 2, 3⟩] [⟨1, 1⟩] _ rfl hstep).1

/-- Charging a storage does not change its name. -/
lemma charge_name (s : Storage) (a : ℚ) : (s.charge a).2.name = s.name := by
  unfold Storage.charge
  split <;> rfl

/-- Discharging a storage does not change its name. -/
lemma discharge_name (s : Storage) (a : ℚ) : (s.discharge a).2.name = s.name := by
  unfold Storage.discharge
  split <;> rfl

/-- One loop iteration appends exactly one storage, of the same name as the
one visited, to the processed list. -/
lemma stepBody_done (consumption production p2p_base_price sale_price grid_price
    token_mint_rate token_burn_rate : ℚ) (d : DecisionOutput)
    (ls : LoopState) (st : Storage) :
    ∃ st2 : Storage,
      (stepBody consumption production p2p_base_price sale_price grid_price
        token_mint_rate token_burn_rate d ls st).storagesDone
        = ls.storagesDone ++ [st2] ∧ st2.name = st.name := by
  unfold stepBody
  dsimp only
  refine ⟨_, rfl, ?_⟩
  split
  · rw [discharge_name]
    split
    · rw [charge_name]
    · rfl
  · split
    · rw [charge_name]
    · rfl

/-- The storage loop preserves the multiset of names, in order: the processed
list extends the initial one by the names of the visited storages. -/
lemma foldl_stepBody_names (consumption production p2p_base_price sale_price
    grid_price token_mint_rate token_burn_rate : ℚ) (d : DecisionOutput) :
    ∀ (ss : List Storage) (ls : LoopState),
      (ss.foldl (stepBody consumption production p2p_base_price sale_price grid_price
        token_mint_rate token_burn_rate d) ls).storagesDone.map Storage.name
        = ls.storagesDone.map Storage.name ++ ss.map Storage.name := by
  intro ss
  induction ss with
  | nil => intro ls; simp
  | cons st rest ih =>
    intro ls
    rw [List.foldl_cons, ih]
    obtain ⟨st2, hdone, hname⟩ := stepBody_done consumption production p2p_base_price
      sale_price grid_price token_mint_rate token_burn_rate d ls st
    rw [hdone]
    simp [hname]

/-- The dict-update fold distributes over the entries: appending the storage
levels to the history dict is the pointwise chain update of each entry. -/
lemma appendStorageHistory_eq_map (ss : List Storage) :
    ∀ hs, appendStorageHistory ss hs = hs.map (chainUpdate ss) := by
  induction ss with
  | nil =>
    intro hs
    show hs = hs.map (chainUpdate [])
    exact (List.map_id hs).symm
  | cons st rest ih =>
    intro hs
    show rest.foldl (fun acc st2 => updateOneHistory st2 acc) (updateOneHistory st hs)
      = hs.map (chainUpdate (st :: rest))
    rw [show rest.foldl (fun acc st2 => updateOneHistory st2 acc) (updateOneHistory st hs)
        = appendStorageHistory rest (updateOneHistory st hs) from rfl,
      ih (updateOneHistory st hs)]
    unfold updateOneHistory
    rw [List.map_map]
    rfl

/-- A chain update never changes the key of an entry. -/
lemma chainUpdate_fst (ss : List Storage) : ∀ p, (chainUpdate ss p).1 = p.1 := by
  induction ss with
  | nil => intro p; rfl
  | cons st rest ih =>
    intro p
    show (chainUpdate rest (if p.1 = st.name then (p.1, p.2 ++ [st.current_level]) else p)).1 = p.1
    rw [ih]
    split <;> rfl

/-- A chain update lengthens an entry by the number of visited storages
carrying its name. -/
lemma chainUpdate_length (ss : List Storage) :
    ∀ p, (chainUpdate ss p).2.length
      = p.2.length + ss.countP (fun st => decide (p.1 = st.name)) := by
  induction ss with
  | nil => intro p; simp [chainUpdate]
  | cons st rest ih =>
    intro p
    show (chainUpdate rest (if p.1 = st.name then (p.1, p.2 ++ [st.current_level]) else p)).2.length = _
    rw [List.countP_cons]
    by_cases h : p.1 = st.name
    · rw [if_pos h, ih]
      simp [h]
      omega
    · rw [if_neg h, ih]
      simp [h]

/-- In a duplicate-free list of names, a present name is counted exactly
once. -/
lemma countP_name_eq_one :
    ∀ {names : List String}, names.Nodup → ∀ {a : String}, a ∈ names →
      names.countP (fun n => decide (a = n)) = 1 := by
  intro names
  induction names with
  | nil => intro _ a ha; cases ha
  | cons n rest ih =>
    intro hnd a ha
    rw [List.countP_cons]
    rcases List.mem_cons.mp ha with h | h
    · subst h
      have hz : rest.countP (fun m => decide (a = m)) = 0 := by
        refine List.countP_eq_zero.mpr ?_
        intro x hx
        simp only [decide_eq_true_eq]
        intro hax
        exact (List.nodup_cons.mp hnd).1 (hax ▸ hx)
      simp [hz]
    · have hne : a ≠ n := by
        intro he
        exact (List.nodup_cons.mp hnd).1 (he ▸ h)
      rw [ih (List.nodup_cons.mp hnd).2 h]
      simp [hne]

/-- Appending the storage levels preserves the keys of the history dict. -/
lemma appendStorageHistory_keys (ss : List Storage) (hs : List (String × List ℚ)) :
    (appendStorageHistory ss hs).map Prod.fst = hs.map Prod.fst := by
  rw [appendStorageHistory_eq_map, List.map_map]
  refine List.map_congr_left ?_
  intro p _
  exact chainUpdate_fst ss p

/-- When the dict keys are exactly the (duplicate-free) storage names, the
append lengthens every entry by exactly one. -/
lemma appendStorageHistory_entry {ss : List Storage} {hs : List (String × List ℚ)}
    (hkeys : hs.map Prod.fst = ss.map Storage.name)
    (hnd : (ss.map Storage.name).Nodup) :
    ∀ q ∈ appendStorageHistory ss hs, ∃ p ∈ hs, q.2.length = p.2.length + 1 := by
  intro q hq
  rw [appendStorageHistory_eq_map] at hq
  obtain ⟨p, hp, rfl⟩ := List.mem_map.mp hq
  refine ⟨p, hp, ?_⟩
  rw [chainUpdate_length]
  have hmem : p.1 ∈ ss.map Storage.name := by
    rw [← hkeys]
    exact List.mem_map_of_mem Prod.fst hp
  have hcount : ss.countP (fun st => decide (p.1 = st.name)) = 1 := by
    have h2 := countP_name_eq_one hnd hmem
    rw [List.countP_map] at h2
    exact h2
  rw [hcount]

/-- The storages of a step result are the processed list of the loop. -/
lemma stepApply_storages (provider : DecisionInput → Option DecisionOutput)
    (s : CoopState) (hd : HourRecord) (gc : GridCost)
    (p2p_base_price token_mint_rate token_burn_rate : ℚ) :
    (stepApply provider s hd gc p2p_base_price token_mint_rate
        token_burn_rate).storages
      = (stepLoopState provider s hd gc p2p_base_price token_mint_rate
          token_burn_rate).storagesDone := rfl

/-- The per-storage history of a step result is the dict updated from the
processed list of the loop. -/
lemma stepApply_history_storage (provider : DecisionInput → Option DecisionOutput)
    (s : CoopState) (hd : HourRecord) (gc : GridCost)
    (p2p_base_price token_mint_rate token_burn_rate : ℚ) :
    (stepApply provider s hd gc p2p_base_price token_mint_rate
        token_burn_rate).history_storage
      = appendStorageHistory
          (stepLoopState provider s hd gc p2p_base_price token_mint_rate
            token_burn_rate).storagesDone s.history_storage := rfl

/-- The storage loop preserves the list of storage names. -/
lemma stepLoopState_names (provider : DecisionInput → Option DecisionOutput)
    (s : CoopState) (hd : HourRecord) (gc : GridCost)
    (p2p_base_price token_mint_rate token_burn_rate : ℚ) :
    (stepLoopState provider s hd gc p2p_base_price token_mint_rate
        token_burn_rate).storagesDone.map Storage.name
      = s.storages.map Storage.name := by
  unfold stepLoopState
  rw [foldl_stepBody_names]
  rfl

/-- One executed step grows every appended history series and the log by one,
leaves history_energy_sold_to_p2p untouched, and grows every entry of the
per-storage dict by one. -/
lemma stepApply_histLens {provider : DecisionInput → Option DecisionOutput}
    {s : CoopState} {hd : HourRecord} {gc : GridCost}
    {p2p_base_price token_mint_rate token_burn_rate : ℚ} {n : Nat}
    (hl : HistLens s n) (hk : StorageKeys s) :
    HistLens (stepApply provider s hd gc p2p_base_price token_mint_rate
      token_burn_rate) (n + 1) := by
  obtain ⟨h1, h2, h3, h4, h5, h6, h7, h8, h9, h10, h11, h12, h13⟩ := hl
  obtain ⟨hkeys, hnd⟩ := hk
  refine ⟨?_, ?_, ?_, ?_, ?_, ?_, ?_, ?_, ?_, ?_, ?_, ?_, ?_⟩
  · simp [stepApply, h1]
  · simp [stepApply, h2]
  · simp [stepApply, h3]
  · simp [stepApply, h4]
  · simp [stepApply, h5]
  · simp [stepApply, h6]
  · simp [stepApply, h7]
  · simp [stepApply, h8]
  · simp [stepApply, h9]
  · simp [stepApply, h10]
  · simp [stepApply, h11]
  · intro q hq
    rw [stepApply_history_storage] at hq
    have hkeys2 : s.history_storage.map Prod.fst
        = (stepLoopState provider s hd gc p2p_base_price token_mint_rate
            token_burn_rate).storagesDone.map Storage.name := by
      rw [stepLoopState_names]
      exact hkeys
    have hnd2 : ((stepLoopState provider s hd gc p2p_base_price token_mint_rate
        token_burn_rate).storagesDone.map Storage.name).Nodup := by
      rw [stepLoopState_names]
      exact hnd
    obtain ⟨p, hp, hlen⟩ := appendStorageHistory_entry hkeys2 hnd2 q hq
    rw [hlen, h12 p hp]
  · simp [stepApply, h13]

/-- One executed step keeps the dict keys aligned with the (unchanged,
duplicate-free) storage names. -/
lemma stepApply_storageKeys {provider : DecisionInput → Option DecisionOutput}
    {s : CoopState} {hd : HourRecord} {gc : GridCost}
    {p2p_base_price token_mint_rate token_burn_rate : ℚ}
    (hk : StorageKeys s) :
    StorageKeys (stepApply provider s hd gc p2p_base_price token_mint_rate
      token_burn_rate) := by
  obtain ⟨hkeys, hnd⟩ := hk
  constructor
  · rw [stepApply_history_storage, stepApply_storages, appendStorageHistory_keys,
      hkeys, stepLoopState_names]
  · rw [stepApply_storages, stepLoopState_names]
    exact hnd

/-- A normally terminating simulation run grows all history lengths by the
number of steps run. -/
lemma simulateFrom_ok_inv {provider : DecisionInput → Option DecisionOutput}
    {p2p_base_price min_price token_mint_rate token_burn_rate : ℚ}
    {hourly : List HourRecord} {grid : List GridCost} :
    ∀ (n i : Nat) (s sf : CoopState) (m : Nat), HistLens s m → StorageKeys s →
      simulateFrom provider p2p_base_price min_price token_mint_rate
        token_burn_rate hourly grid n i s = SimResult.ok sf →
      HistLens sf (m + n) ∧ StorageKeys sf := by
  intro n
  induction n with
  | zero =>
    intro i s sf m hl hk h
    injection h with h2
    subst h2
    exact ⟨hl, hk⟩
  | succ k ih =>
    intro i s sf m hl hk h
    cases hstep : simulateStep provider s i p2p_base_price hourly grid min_price
        token_mint_rate token_burn_rate with
    | none =>
      simp only [simulateFrom, hstep] at h
      cases h
    | some s2 =>
      simp only [simulateFrom, hstep] at h
      obtain ⟨hd, gc, _, _, rfl⟩ := simulateStep_eq_some_iff.mp hstep
      obtain ⟨ha, hb⟩ := ih (i + 1) _ sf (m + 1)
        (stepApply_histLens hl hk) (stepApply_storageKeys hk) h
      refine ⟨?_, hb⟩
      rwa [show m + 1 + k = m + (k + 1) from by omega] at ha

/-- The freshly initialised Cooperative has all history series empty. -/
lemma init_histLens (cfg : List Storage) (bal0 : ℚ) :
    HistLens (Cooperative.init cfg bal0) 0 := by
  refine ⟨rfl, rfl, rfl, rfl, rfl, rfl, rfl, rfl, rfl, rfl, rfl, ?_, rfl⟩
  intro p hp
  obtain ⟨st, _, rfl⟩ := List.mem_map.mp hp
  rfl

/-- The freshly initialised Cooperative has dict keys equal to the storage
names. -/
lemma init_storageKeys (cfg : List Storage) (bal0 : ℚ)
    (hnd : (cfg.map Storage.name).Nodup) :
    StorageKeys (Cooperative.init cfg bal0) := by
  constructor
  · show (cfg.map (fun st => (st.name, ([] : List ℚ)))).map Prod.fst = _
    rw [List.map_map]
    rfl
  · exact hnd

/-- C4 amended: after simulate(N) from a fresh Cooperative with distinct
storage names and sufficient data, every history series maintained by the
Cooperative has length exactly N — except history_energy_sold_to_p2p, which
is initialised but never appended and stays at length 0 (HistLens states both
facts, the per-storage series included). -/
theorem c4_amended (provider : DecisionInput → Option DecisionOutput)
    (cfg : List Storage) (bal0 : ℚ) (N : Nat)
    (p2p_base_price min_price token_mint_rate token_burn_rate : ℚ)
    (hourly : List HourRecord) (grid : List GridCost)
    (hnd : (cfg.map Storage.name).Nodup)
    (hN : N ≤ hourly.length) (hg : grid ≠ []) :
    ∃ sf, simulate provider (Cooperative.init cfg bal0) N p2p_base_price
        min_price token_mint_rate token_burn_rate hourly grid = SimResult.ok sf ∧
      HistLens sf N := by
  obtain ⟨sf, hok⟩ := simulateFrom_ok hg N 0 (Cooperative.init cfg bal0)
    (show 0 + N ≤ hourly.length from by omega)
  refine ⟨sf, hok, ?_⟩
  have h := (simulateFrom_ok_inv N 0 (Cooperative.init cfg bal0) sf 0
    (init_histLens cfg bal0) (init_storageKeys cfg bal0 hnd) hok).1
  simpa using h

/-- Witness for C4 amended: one step over a one-storage cooperative. -/
theorem c4_amended_witness :
    ∃ sf, simulate (fun _ => none) (Cooperative.init [⟨"A", 10, 0⟩] 0) 1 1 0 0 0
        [⟨0, "d", 2, 3⟩] [⟨1, 1⟩] = SimResult.ok sf ∧ HistLens sf 1 :=
  c4_amended (fun _ => none) [⟨"A", 10, 0⟩] 0 1 1 0 0 0 [⟨0, "d", 2, 3⟩] [⟨1, 1⟩]
    (by simp) (by norm_num) (List.cons_ne_nil _ _)

/-- Counterexample to C4: after simulate(1) the series
history_energy_sold_to_p2p has length 0, not 1 — it is never appended. -/
theorem c4_counterexample :
    (simulate (fun _ => none) (Cooperative.init [⟨"A", 10, 0⟩] 0) 1 1 0 0 0
      [⟨0, "d", 2, 3⟩] [⟨1, 1⟩]).state.history_energy_sold_to_p2p.length = 0 ∧
    (simulate (fun _ => none) (Cooperative.init [⟨"A", 10, 0⟩] 0) 1 1 0 0 0
      [⟨0, "d", 2, 3⟩] [⟨1, 1⟩]).state.history_consumption.length = 1 ∧
    (0 : Nat) ≠ 1 := by
  obtain ⟨hd, gc, _, _, hstep⟩ :=
    @simulateStep_succeeds (fun _ => none) (Cooperative.init [⟨"A", 10, 0⟩] 0) 0 1
      [⟨0, "d", 2, 3⟩] [⟨1, 1⟩] 0 0 0 (by norm_num) (List.cons_ne_nil _ _)
  have hsim : simulate (fun _ => none) (Cooperative.init [⟨"A", 10, 0⟩] 0) 1 1 0 0 0
      [⟨0, "d", 2, 3⟩] [⟨1, 1⟩]
      = SimResult.ok (stepApply (fun _ => none) (Cooperative.init [⟨"A", 10, 0⟩] 0)
          hd gc 1 0 0) := by
    show simulateFrom (fun _ => none) 1 0 0 0 [⟨0, "d", 2, 3⟩] [⟨1, 1⟩] 1 0
        (Cooperative.init [⟨"A", 10, 0⟩] 0) = _
    simp only [simulateFrom, hstep]
  rw [hsim]
  refine ⟨?_, ?_, by norm_num⟩
  · show (stepApply (fun _ => none) (Cooperative.init [⟨"A", 10, 0⟩] 0)
        hd gc 1 0 0).history_energy_sold_to_p2p.length = 0
    simp [stepApply, Cooperative.init]
  · show (stepApply (fun _ => none) (Cooperative.init [⟨"A", 10, 0⟩] 0)
        hd gc 1 0 0).history_consumption.length = 1
    simp [stepApply, Cooperative.init]

/-- The history of consumed hours grows by one per executed step. -/
lemma stepApply_consumption_length (provider : DecisionInput → Option DecisionOutput)
    (s : CoopState) (hd : HourRecord) (gc : GridCost)
    (p2p_base_price token_mint_rate token_burn_rate : ℚ) :
    (stepApply provider s hd gc p2p_base_price token_mint_rate
        token_burn_rate).history_consumption.length
      = s.history_consumption.length + 1 := by
  simp [stepApply]

/-- When the hourly data runs out before the requested horizon, the loop of
simulate executes every covered step and then raises at the first uncovered
index, leaving the mutated state behind. -/
lemma simulateFrom_err {provider : DecisionInput → Option DecisionOutput}
    {p2p_base_price min_price token_mint_rate token_burn_rate : ℚ}
    {hourly : List HourRecord} {grid : List GridCost} (hg : grid ≠ []) :
    ∀ (n i : Nat) (s : CoopState), hourly.length < i + n → i ≤ hourly.length →
      s.history_consumption.length = i →
      ∃ se, simulateFrom provider p2p_base_price min_price token_mint_rate
          token_burn_rate hourly grid n i s = SimResult.err se ∧
        se.history_consumption.length = hourly.length := by
  intro n
  induction n with
  | zero =>
    intro i s h1 h2 _
    omega
  | succ m ih =>
    intro i s h1 h2 h3
    rcases Nat.lt_or_ge i hourly.length with hi | hi
    · obtain ⟨hd, gc, _, _, hstep⟩ :=
        @simulateStep_succeeds provider s i p2p_base_price hourly grid min_price
          token_mint_rate token_burn_rate hi hg
      simp only [simulateFrom, hstep]
      refine ih (i + 1) _ (by omega) (by omega) ?_
      rw [stepApply_consumption_length, h3]
    · have hnone := @simulateStep_eq_none_of provider s i p2p_base_price hourly
        grid min_price token_mint_rate token_burn_rate (by omega)
      simp only [simulateFrom, hnone]
      exact ⟨s, rfl, by omega⟩

/-- C9 amended: when the hourly data feed has fewer entries than the requested
number of steps (and the grid table is non-empty), simulate does not fail fast
at simulation start: it executes and records every step the data covers, and
only then the out-of-range data access raises, escaping simulate with the
mutated state — the history already holds one entry per covered step. -/
theorem c9_amended (provider : DecisionInput → Option DecisionOutput)
    (cfg : List Storage) (bal0 : ℚ) (steps : Nat)
    (p2p_base_price min_price token_mint_rate token_burn_rate : ℚ)
    (hourly : List HourRecord) (grid : List GridCost)
    (hshort : hourly.length < steps) (hg : grid ≠ []) :
    ∃ se, simulate provider (Cooperative.init cfg bal0) steps p2p_base_price
        min_price token_mint_rate token_burn_rate hourly grid = SimResult.err se ∧
      se.history_consumption.length = hourly.length := by
  exact simulateFrom_err hg steps 0 (Cooperative.init cfg bal0) (by omega)
    (by omega) rfl

/-- Witness for C9 amended: two requested steps over one hourly record. -/
theorem c9_amended_witness :
    ∃ se, simulate (fun _ => none) (Cooperative.init [] 0) 2 1 0 0 0
        [⟨0, "d", 2, 3⟩] [⟨1, 1⟩] = SimResult.err se ∧
      se.history_consumption.length = ([⟨0, "d", 2, 3⟩] : List HourRecord).length :=
  c9_amended (fun _ => none) [] 0 2 1 0 0 0 [⟨0, "d", 2, 3⟩] [⟨1, 1⟩]
    (by norm_num) (List.cons_ne_nil _ _)

/-- Counterexample to C9: asking for 2 steps with 1 hourly record, the run
ends in an escaped error, but only after the first step has executed and
mutated the history (length 1, not the 0 that failing fast at start would
leave). -/
theorem c9_counterexample :
    (simulate (fun _ => none) (Cooperative.init [] 0) 2 1 0 0 0
      [⟨0, "d", 2, 3⟩] [⟨1, 1⟩]).isErr = true ∧
    (simulate (fun _ => none) (Cooperative.init [] 0) 2 1 0 0 0
      [⟨0, "d", 2, 3⟩] [⟨1, 1⟩]).state.history_consumption.length = 1 ∧
    (1 : Nat) ≠ 0 := by
  obtain ⟨se, he, hlen⟩ := simulateFrom_err (List.cons_ne_nil (⟨1, 1⟩ : GridCost) [])
    2 0 (Cooperative.init [] 0)
    (show ([⟨0, "d", 2, 3⟩] : List HourRecord).length < 0 + 2 from by norm_num)
    (show 0 ≤ ([⟨0, "d", 2, 3⟩] : List HourRecord).length from by norm_num) rfl
  have hsim : simulate (fun _ => none) (Cooperative.init [] 0) 2 1 0 0 0
      [⟨0, "d", 2, 3⟩] [⟨1, 1⟩] = SimResult.err se := he
  rw [hsim]
  refine ⟨rfl, ?_, by norm_num⟩
  show se.history_consumption.length = 1
  simpa using hlen

end C4E
